import Mathlib

/-!
Verification development for the tiling strategy-selection pass
(`StrategyX.cpp` of the Ethos-N driver-stack support library).

The data model and the operations below are a shallow embedding of
`src/driver/support_library/src/nonCascading/StrategyX.cpp`.  Machine
integers are modelled as `Nat` (all quantities involved are small,
non-negative byte counts and tensor dimensions).  C++ `assert` failures
are modelled by the `StrategyResult.assertFailed` constructor; recoverable
"no fit" results are `StrategyResult.done false`.

Helper functions that live elsewhere in the repository (the SRAM
allocator, `RoundUpToNearestMultiple`, `DivRoundUp`, `TotalSizeBytes`,
`AccountForFullDimension`, `GetBoundaryRequirements`,
`EstimateWeightSizeBytes`, `g_WeightsChannelVecProd`) are modelled from
the specification; each carries a doc comment saying so.
-/

/-- A 4-dimensional tensor shape, NHWC for activations
(`d0 = batch, d1 = height, d2 = width, d3 = channels`) and HWIO for
weights (`d0 = kernel height, d1 = kernel width, d2 = input channels,
d3 = output channels`). -/
structure TensorShape where
  d0 : Nat
  d1 : Nat
  d2 : Nat
  d3 : Nat
deriving DecidableEq, Repr

def GetHeight (s : TensorShape) : Nat := s.d1

def GetWidth (s : TensorShape) : Nat := s.d2

def GetChannels (s : TensorShape) : Nat := s.d3

/-- Modelled from the spec: round `x` up to the nearest multiple of `m`. -/
def RoundUpToNearestMultiple (x m : Nat) : Nat := ((x + m - 1) / m) * m

/-- Modelled from the spec: ceiling division. -/
def DivRoundUp (a b : Nat) : Nat := (a + b - 1) / b

/-- Modelled from the spec: byte size of a tensor shape, one byte per
element (8-bit tensors). -/
def TotalSizeBytes (s : TensorShape) : Nat := s.d0 * s.d1 * s.d2 * s.d3

/-- Modelled from the spec: derive an input-stripe extent from an
output-stripe extent by inverse-scaling through the shape multiplier,
using the full input extent when the stripe covers the full output
extent (never stripe wider/taller than the source). -/
def AccountForFullDimension (origSpace newSpace origValue mult : Nat) : Nat :=
  if origValue ≥ origSpace then newSpace else origValue / mult

/-- Per-axis scale factor relating one tensor's granularity to another's. -/
structure ShapeMultiplier where
  m_H : Nat
  m_W : Nat
  m_C : Nat
deriving DecidableEq, Repr

def ShapeMultiplier.mul (a b : ShapeMultiplier) : ShapeMultiplier :=
  ⟨a.m_H * b.m_H, a.m_W * b.m_W, a.m_C * b.m_C⟩

/-- Read-only facts about the target hardware. -/
structure HardwareCapabilities where
  totalAccumulatorsPerEngine : Nat
  brickGroupShape : TensorShape
  numberOfSrams : Nat
  numberOfOfm : Nat
  activationCompressionVersion : Nat
deriving DecidableEq, Repr

/-- A candidate hardware compute block shape. -/
structure BlockConfig where
  m_BlockWidth : Nat
  m_BlockHeight : Nat
deriving DecidableEq, Repr

inductive MceOperation where
  | CONVOLUTION
  | DEPTHWISE_CONVOLUTION
  | FULLY_CONNECTED
deriving DecidableEq, Repr

inductive UpsampleType where
  | OFF
  | BILINEAR
  | NEAREST_NEIGHBOUR
  | TRANSPOSE
deriving DecidableEq, Repr

/-- Weight tensor data layouts (only the two used by this pass). -/
inductive DataFormat where
  | hwioLayout
  | hwimLayout
deriving DecidableEq, Repr

inductive Strategy where
  | NONE
  | STRATEGY_X
  | STRATEGY_0
  | STRATEGY_1
  | STRATEGY_3
  | STRATEGY_7
  | STRATEGY_FC
deriving DecidableEq, Repr

/-- One tensor's part of a tensor configuration: stripe shape, tile byte
size and tile byte offset. -/
structure TensorAllocation where
  stripeShape : TensorShape
  tileSize : Nat
  offset : Nat
deriving DecidableEq, Repr

/-- The product of the search. -/
structure TensorConfig where
  inputAllocation : TensorAllocation
  outputAllocation : TensorAllocation
  weightsAllocation : TensorAllocation
  blockWidth : Nat
  blockHeight : Nat
  strategy : Strategy
deriving DecidableEq, Repr

inductive WeightsReloadingOptions where
  | NO_RELOADING
  | RELOADING_DOUBLE_BUFFERING
  | RELOADING_NO_DOUBLE_BUFFERING
deriving DecidableEq, Repr

/-- Modelled from the spec: the scratch-memory allocator state, specified
only at its interface — a byte budget plus the current high-water mark. -/
structure SramAllocator where
  budgetBytes : Nat
  usedBytes : Nat
deriving DecidableEq, Repr

/-- Result of one allocation attempt: success flag plus the chosen byte
offsets of the three tiles. -/
structure AllocationResult where
  m_Success : Bool
  inputOffset : Nat
  weightOffset : Nat
  outputOffset : Nat
deriving DecidableEq, Repr

/-- Modelled from the spec: the allocator query interface — given the
input, weight and output tile byte sizes (plus an optional caller-fixed
input offset for an already-resident input), place all three inside the
byte budget and return the chosen offsets, or fail with the state
unchanged.  Offsets are assigned bump-style from the current high-water
mark. -/
def FitsInSram (sramAllocator : SramAllocator) (_capabilities : HardwareCapabilities)
    (inputTile weightTile outputTile : Nat) (inputStaticAndOffset : Bool × Nat) :
    AllocationResult × SramAllocator :=
  if inputStaticAndOffset.1 = true then
    if sramAllocator.usedBytes + weightTile + outputTile ≤ sramAllocator.budgetBytes then
      (⟨true, inputStaticAndOffset.2, sramAllocator.usedBytes,
        sramAllocator.usedBytes + weightTile⟩,
       ⟨sramAllocator.budgetBytes, sramAllocator.usedBytes + weightTile + outputTile⟩)
    else (⟨false, 0, 0, 0⟩, sramAllocator)
  else
    if sramAllocator.usedBytes + inputTile + weightTile + outputTile ≤ sramAllocator.budgetBytes then
      (⟨true, sramAllocator.usedBytes, sramAllocator.usedBytes + inputTile,
        sramAllocator.usedBytes + inputTile + weightTile⟩,
       ⟨sramAllocator.budgetBytes,
        sramAllocator.usedBytes + inputTile + weightTile + outputTile⟩)
    else (⟨false, 0, 0, 0⟩, sramAllocator)

/-- Boundary-slot requirements along one axis. -/
structure NeedBoundary where
  m_Before : Bool
  m_After : Bool
deriving DecidableEq, Repr

/-- Modelled from the spec: boundary slots are needed only when the axis
is split into multiple stripes and padding plus the kernel geometry
require keeping overlap rows at the top/bottom of the tile. -/
def GetBoundaryRequirements (padBefore inputDim inputStripeDim _mceOutputStripeDim
    kernelDim : Nat) : NeedBoundary :=
  if inputStripeDim ≥ inputDim then ⟨false, false⟩
  else ⟨decide (kernelDim > 1 ∧ padBefore > 0), decide (kernelDim > 1)⟩

/-- Modelled from the spec: the fixed weight-channel-vector granularity
used for fully-connected weight-stripe rounding. -/
def g_WeightsChannelVecProd : Nat := 1024

/-- Modelled from the spec: pure weight-tile byte-size estimator, a
function of the weight stripe shape, the capabilities and the
grouped/depthwise flag.  The spec gives no formula, so one byte per
weight element is used. -/
def EstimateWeightSizeBytes (stripe : TensorShape) (_capabilities : HardwareCapabilities)
    (_isHwim : Bool) : Nat :=
  TotalSizeBytes stripe

def IsUpsampling (upsampleType : UpsampleType) : Bool :=
  decide (upsampleType ≠ UpsampleType.OFF)

def IsFullyConnected (mceOperation : MceOperation) : Bool :=
  decide (mceOperation = MceOperation.FULLY_CONNECTED)

def IsBlockConfigCompatible (blockConfig : BlockConfig) (capabilities : HardwareCapabilities)
    (mceOperation : MceOperation) (upsampleType : UpsampleType) : Bool :=
  let numAccumulatorsPerOg := capabilities.totalAccumulatorsPerEngine
  let currBlockWidth := blockConfig.m_BlockWidth
  let currBlockHeight := blockConfig.m_BlockHeight
  let numberOfElementsInABlock := currBlockWidth * currBlockHeight
  let isUpsampling := IsUpsampling upsampleType
  let isFullyConnected := IsFullyConnected mceOperation
  if numberOfElementsInABlock > numAccumulatorsPerOg then false
  else if isFullyConnected = true ∧ ¬(currBlockWidth = 8 ∧ currBlockHeight = 8) then false
  else if isUpsampling = true ∧ ¬(currBlockWidth = 16 ∧ currBlockHeight = 16) then false
  else true

/-- Which C++ `assert` fired (a programming-contract breach that aborts
the search, as opposed to a recoverable "no fit"). -/
inductive StrategyAssert where
  | weightsNotHwio
  | compressionVersion
deriving DecidableEq, Repr

/-- Result of a resolver call or a traversal search: either an assertion
failure, or a success flag together with the post-call allocator state
and tensor configuration. -/
inductive StrategyResult where
  | assertFailed : StrategyAssert → StrategyResult
  | done : Bool → SramAllocator → TensorConfig → StrategyResult
deriving DecidableEq, Repr

/-- The full argument list of `TryStripeShapes`, bundled. -/
structure TssArgs where
  mceOperation : MceOperation
  sramAllocator : SramAllocator
  requestedOutputStripe : TensorShape
  requestedInputChannels : Nat
  inputShape : TensorShape
  outputShape : TensorShape
  weightsFormat : DataFormat
  weightsShape : TensorShape
  capabilities : HardwareCapabilities
  mceShapeMultiplier : ShapeMultiplier
  pleShapeMultiplier : ShapeMultiplier
  pad : Nat × Nat
  inputStaticAndOffset : Bool × Nat
  outTensorConfig : TensorConfig
  depthMax : Nat
  allowInputBuffering : Bool
  avoidInputReloading : Bool
  activationCompression : Bool
  weightsReloading : WeightsReloadingOptions
deriving DecidableEq, Repr

/-- Requested output-stripe width rounded to brick-group granularity and
clamped to the rounded-up full output width (StrategyX.cpp lines 108-112). -/
def OutputStripeWidthOf (g : TssArgs) : Nat :=
  let shapeMultiplier := g.mceShapeMultiplier.mul g.pleShapeMultiplier
  let brickGroupWidth := GetWidth g.capabilities.brickGroupShape
  let outputStripeWidthMin := brickGroupWidth * shapeMultiplier.m_W
  let outputStripeWidthMax := RoundUpToNearestMultiple (GetWidth g.outputShape) brickGroupWidth
  min (RoundUpToNearestMultiple (GetWidth g.requestedOutputStripe) outputStripeWidthMin)
    outputStripeWidthMax

/-- Requested output-stripe height rounded and clamped
(StrategyX.cpp lines 114-118). -/
def OutputStripeHeightOf (g : TssArgs) : Nat :=
  let shapeMultiplier := g.mceShapeMultiplier.mul g.pleShapeMultiplier
  let brickGroupHeight := GetHeight g.capabilities.brickGroupShape
  let outputStripeHeightMin := brickGroupHeight * shapeMultiplier.m_H
  let outputStripeHeightMax := RoundUpToNearestMultiple (GetHeight g.outputShape) brickGroupHeight
  min (RoundUpToNearestMultiple (GetHeight g.requestedOutputStripe) outputStripeHeightMin)
    outputStripeHeightMax

/-- Output-stripe channel count before the depth cap: two-tier rounding
to brick-group channels or to the SRAM lane count
(StrategyX.cpp lines 119-130). -/
def OutputStripeChannelsPreOf (g : TssArgs) : Nat :=
  let shapeMultiplier := g.mceShapeMultiplier.mul g.pleShapeMultiplier
  let brickGroupChannels := GetChannels g.capabilities.brickGroupShape
  if DivRoundUp (GetChannels g.outputShape) (GetChannels g.requestedOutputStripe) > 1 ∧
      GetChannels g.requestedOutputStripe > brickGroupChannels * shapeMultiplier.m_C then
    RoundUpToNearestMultiple (GetChannels g.requestedOutputStripe)
      (brickGroupChannels * shapeMultiplier.m_C)
  else
    RoundUpToNearestMultiple (GetChannels g.requestedOutputStripe)
      (g.capabilities.numberOfSrams * shapeMultiplier.m_C)

/-- Input-stripe height derived from the output stripe
(StrategyX.cpp lines 132-136). -/
def InputStripeHeightOf (g : TssArgs) : Nat :=
  let shapeMultiplier := g.mceShapeMultiplier.mul g.pleShapeMultiplier
  let inputStripeHeightPre := AccountForFullDimension (GetHeight g.outputShape)
    (GetHeight g.inputShape) (OutputStripeHeightOf g) shapeMultiplier.m_H
  RoundUpToNearestMultiple (min inputStripeHeightPre (GetHeight g.inputShape))
    (GetHeight g.capabilities.brickGroupShape)

/-- Input-stripe width derived from the output stripe
(StrategyX.cpp lines 138-141). -/
def InputStripeWidthOf (g : TssArgs) : Nat :=
  let shapeMultiplier := g.mceShapeMultiplier.mul g.pleShapeMultiplier
  let inputStripeWidthPre := AccountForFullDimension (GetWidth g.outputShape)
    (GetWidth g.inputShape) (OutputStripeWidthOf g) shapeMultiplier.m_W
  RoundUpToNearestMultiple (min inputStripeWidthPre (GetWidth g.inputShape))
    (GetWidth g.capabilities.brickGroupShape)

/-- Output-stripe channel count after the multi-stripe depth cap
(StrategyX.cpp lines 143-148). -/
def OutputStripeChannelsCappedOf (g : TssArgs) : Nat :=
  let outputStripeChannels := OutputStripeChannelsPreOf g
  if DivRoundUp (GetHeight g.inputShape) (InputStripeHeightOf g) > 1 then
    min outputStripeChannels g.depthMax
  else outputStripeChannels

/-- MCE output stripe: the output stripe divided by the PLE shape
multiplier (StrategyX.cpp lines 150-153). -/
def MceOutputStripeOf (g : TssArgs) : TensorShape :=
  ⟨1, OutputStripeHeightOf g / g.pleShapeMultiplier.m_H,
   OutputStripeWidthOf g / g.pleShapeMultiplier.m_W,
   OutputStripeChannelsCappedOf g / g.pleShapeMultiplier.m_C⟩

/-- Channel stride size for de-interleaved strided input
(StrategyX.cpp lines 155-157). -/
def StrideSizeOf (g : TssArgs) : Nat :=
  DivRoundUp
    (RoundUpToNearestMultiple (GetChannels g.inputShape) g.capabilities.numberOfSrams)
    (RoundUpToNearestMultiple g.weightsShape.d2 g.capabilities.numberOfSrams)

/-- Input-stripe channel count: two-tier rounding with the stride size in
place of the channel multiplier (StrategyX.cpp lines 159-166). -/
def InputStripeChannelsOf (g : TssArgs) : Nat :=
  let strideSize := StrideSizeOf g
  let brickGroupChannels := GetChannels g.capabilities.brickGroupShape
  if DivRoundUp (GetChannels g.inputShape) g.requestedInputChannels > 1 ∧
      g.requestedInputChannels > brickGroupChannels * strideSize then
    RoundUpToNearestMultiple g.requestedInputChannels (brickGroupChannels * strideSize)
  else
    RoundUpToNearestMultiple g.requestedInputChannels
      (g.capabilities.numberOfSrams * strideSize)

/-- The derived input stripe (StrategyX.cpp line 168). -/
def InputStripeOf (g : TssArgs) : TensorShape :=
  ⟨1, InputStripeHeightOf g, InputStripeWidthOf g, InputStripeChannelsOf g⟩

/-- The derived weight stripe: fully-connected rounds the input-stripe
element count to the weight-channel-vector granularity
(StrategyX.cpp lines 176-187). -/
def WeightStripeOf (g : TssArgs) : TensorShape :=
  let inputStripe := InputStripeOf g
  let weightStripeChannels :=
    if IsFullyConnected g.mceOperation = true then
      RoundUpToNearestMultiple
        (GetHeight inputStripe * GetWidth inputStripe * GetChannels inputStripe)
        g_WeightsChannelVecProd
    else GetChannels inputStripe
  ⟨g.weightsShape.d0, g.weightsShape.d1, weightStripeChannels,
   GetChannels (MceOutputStripeOf g)⟩

/-- Input tile byte size: boundary slots, slot count along the padded
axis, and double-buffering slot groups (StrategyX.cpp lines 194-230). -/
def InputTileOf (g : TssArgs) : Nat :=
  let inputStripe := InputStripeOf g
  let mceOutputStripe := MceOutputStripeOf g
  let needBoundaryY := GetBoundaryRequirements g.pad.1 (GetHeight g.inputShape)
    (GetHeight inputStripe) (GetHeight mceOutputStripe) g.weightsShape.d0
  let needsBoundarySlots := needBoundaryY.m_Before || needBoundaryY.m_After
  let inputStripeXZ := GetWidth inputStripe * GetChannels inputStripe
  let boundarySlotSize :=
    if needsBoundarySlots = true then GetHeight g.capabilities.brickGroupShape * inputStripeXZ
    else 0
  let defaultSlotSize := TotalSizeBytes inputStripe
  let totalSlotSize := 2 * boundarySlotSize + defaultSlotSize
  let numInputStripesTotalX := DivRoundUp (GetWidth g.inputShape) (GetWidth inputStripe)
  let numInputStripesTotalY := DivRoundUp (GetHeight g.inputShape) (GetHeight inputStripe)
  let numInputStripesTotalZ := DivRoundUp (GetChannels g.inputShape) (GetChannels inputStripe)
  let needBoundaryX := GetBoundaryRequirements g.pad.2 (GetWidth g.inputShape)
    (GetWidth inputStripe) (GetWidth mceOutputStripe) g.weightsShape.d1
  let numInputSlots :=
    min (1 + (if needBoundaryX.m_Before = true then 1 else 0)
           + (if needBoundaryX.m_After = true then 1 else 0)) numInputStripesTotalX
  let isFullHeight := numInputStripesTotalY = 1
  let isFullWidth := numInputStripesTotalX = 1
  let numInputSlotGroupsMax :=
    if g.avoidInputReloading = true ∧ isFullHeight ∧ isFullWidth then
      numInputStripesTotalX * numInputStripesTotalY * numInputStripesTotalZ
    else 2
  let needSlotGroups := GetChannels g.inputShape > GetChannels inputStripe
  totalSlotSize * numInputSlots *
    (if g.allowInputBuffering = true ∧ needSlotGroups then numInputSlotGroupsMax else 1)

/-- Number of weight stripes the weight tile must hold
(StrategyX.cpp lines 232-250). -/
def NumWeightStripesInTileOf (g : TssArgs) : Nat :=
  if IsFullyConnected g.mceOperation = false then
    match g.weightsReloading with
    | WeightsReloadingOptions.NO_RELOADING =>
        DivRoundUp (GetChannels g.inputShape) (GetChannels (InputStripeOf g))
    | WeightsReloadingOptions.RELOADING_DOUBLE_BUFFERING => 2
    | WeightsReloadingOptions.RELOADING_NO_DOUBLE_BUFFERING => 1
  else 2

/-- Weight tile byte size (StrategyX.cpp lines 252-253). -/
def WeightTileOf (g : TssArgs) : Nat :=
  EstimateWeightSizeBytes (WeightStripeOf g) g.capabilities
      (decide (g.weightsFormat = DataFormat.hwimLayout)) *
    NumWeightStripesInTileOf g

/-- Minimum output-stripe depth required by the FCAF compression cell
granularity (StrategyX.cpp lines 262-272). -/
def MinFcafDepthOf (g : TssArgs) : Nat :=
  if g.outputShape.d1 ≤ 8 ∧ g.outputShape.d2 ≤ 8 then 32 else 16

/-- The final output stripe, after the optional activation-compression
widening (StrategyX.cpp lines 256-285). -/
def OutputStripeOf (g : TssArgs) : TensorShape :=
  let outputStripeChannels := OutputStripeChannelsCappedOf g
  if g.activationCompression = true ∧ MinFcafDepthOf g > outputStripeChannels then
    ⟨1, RoundUpToNearestMultiple g.outputShape.d1 8,
     RoundUpToNearestMultiple g.outputShape.d2 8, MinFcafDepthOf g⟩
  else ⟨1, OutputStripeHeightOf g, OutputStripeWidthOf g, outputStripeChannels⟩

/-- Byte size of the full output tensor rounded to brick-group/OFM
granularity — the output tile is clamped to this
(StrategyX.cpp lines 302-307). -/
def OutputTileMaxOf (g : TssArgs) : Nat :=
  TotalSizeBytes
    ⟨1, RoundUpToNearestMultiple (GetHeight g.outputShape)
          (GetHeight g.capabilities.brickGroupShape),
     RoundUpToNearestMultiple (GetWidth g.outputShape)
       (GetWidth g.capabilities.brickGroupShape),
     RoundUpToNearestMultiple (GetChannels g.outputShape) g.capabilities.numberOfOfm⟩

/-- Output tile byte size: up to 2 stripes, clamped to the stripes
actually needed and to the full-tensor bound
(StrategyX.cpp lines 293-308). -/
def OutputTileOf (g : TssArgs) : Nat :=
  let outputStripe := OutputStripeOf g
  let maxNumOutputStripesInTile := 2
  let numOutputStripesTotal :=
    DivRoundUp (GetWidth g.outputShape) (GetWidth outputStripe) *
    DivRoundUp (GetHeight g.outputShape) (GetHeight outputStripe) *
    DivRoundUp (GetChannels g.outputShape) (GetChannels outputStripe)
  let numOutputStripesInTile := min maxNumOutputStripesInTile numOutputStripesTotal
  min (TotalSizeBytes outputStripe * numOutputStripesInTile) (OutputTileMaxOf g)

/-- The stripe-shape resolver (StrategyX.cpp lines 80-327): derive
hardware-legal stripe shapes and tile sizes from the requested output
stripe and input-channel split, then try the allocation on a private
copy of the allocator; commit everything only on success. -/
def TryStripeShapes (g : TssArgs) : StrategyResult :=
  let brickGroupHeight := GetHeight g.capabilities.brickGroupShape
  let brickGroupWidth := GetWidth g.capabilities.brickGroupShape
  let inputStripe := InputStripeOf g
  if ¬(GetHeight inputStripe % brickGroupHeight = 0 ∧
       GetWidth inputStripe % brickGroupWidth = 0) then
    StrategyResult.done false g.sramAllocator g.outTensorConfig
  else if ¬(g.weightsFormat = DataFormat.hwioLayout) then
    StrategyResult.assertFailed StrategyAssert.weightsNotHwio
  else if g.activationCompression = true ∧
      ¬(g.capabilities.activationCompressionVersion = 1) then
    StrategyResult.assertFailed StrategyAssert.compressionVersion
  else
    let outputStripe := OutputStripeOf g
    if ¬(GetHeight outputStripe % brickGroupHeight = 0 ∧
         GetWidth outputStripe % brickGroupWidth = 0) then
      StrategyResult.done false g.sramAllocator g.outTensorConfig
    else
      let fits := FitsInSram g.sramAllocator g.capabilities (InputTileOf g) (WeightTileOf g)
        (OutputTileOf g) g.inputStaticAndOffset
      if fits.1.m_Success = false then
        StrategyResult.done false g.sramAllocator g.outTensorConfig
      else
        StrategyResult.done true fits.2
          { g.outTensorConfig with
            inputAllocation := ⟨inputStripe, InputTileOf g, fits.1.inputOffset⟩,
            outputAllocation := ⟨outputStripe, OutputTileOf g, fits.1.outputOffset⟩,
            weightsAllocation := ⟨WeightStripeOf g, WeightTileOf g, fits.1.weightOffset⟩ }

/-- The argument list shared by the two traversal searches
(StrategyX.cpp lines 331-345 and 488-502), bundled. -/
structure SearchArgs where
  mceOperation : MceOperation
  upsampleType : UpsampleType
  tensorConfig : TensorConfig
  sramAllocator : SramAllocator
  inputShape : TensorShape
  outputShape : TensorShape
  weightsFormat : DataFormat
  weightsShape : TensorShape
  pad : Nat × Nat
  allowedBlockConfigs : List BlockConfig
  capabilities : HardwareCapabilities
  mceShapeMultiplier : ShapeMultiplier
  pleShapeMultiplier : ShapeMultiplier
  inputStaticAndOffset : Bool × Nat
  depthMax : Nat
deriving DecidableEq, Repr

/-- The sort comparator on block configs: descending width, then
descending height (StrategyX.cpp lines 355-359). -/
def BlockConfigGreater (a b : BlockConfig) : Bool :=
  decide (a.m_BlockWidth > b.m_BlockWidth ∨
    (a.m_BlockWidth = b.m_BlockWidth ∧ a.m_BlockHeight ≥ b.m_BlockHeight))

def InsertBlockConfig (x : BlockConfig) : List BlockConfig → List BlockConfig
  | [] => [x]
  | y :: ys => if BlockConfigGreater x y = true then x :: y :: ys
               else y :: InsertBlockConfig x ys

/-- Insertion sort by `BlockConfigGreater` (models the `std::sort` call;
the claims do not depend on the order among equal keys). -/
def SortBlockConfigs : List BlockConfig → List BlockConfig
  | [] => []
  | x :: xs => InsertBlockConfig x (SortBlockConfigs xs)

/-- One candidate parameter record of the channel-split (ZXY) search
(StrategyX.cpp lines 361-370). -/
structure ZxyParams where
  blockHeight : Nat
  blockWidth : Nat
  inputStripeChannel : Nat
  outputStripeHeight : Nat
  outputStripeWidth : Nat
  outputStripeChannel : Nat
  activationCompression : Bool
deriving DecidableEq, Repr

/-- Activation-compression options tried by the ZXY search: `{true,
false}` on compression-version-1 hardware for non-fully-connected
operators, `{false}` otherwise (StrategyX.cpp lines 372-381). -/
def ActivationCompressionOptions (capabilities : HardwareCapabilities)
    (isFullyConnected : Bool) : List Bool :=
  (if capabilities.activationCompressionVersion = 1 ∧ isFullyConnected = false
   then [true] else []) ++ [false]

/-- The ZXY search's candidate list: for each compression option and each
compatible block config (sorted), one candidate per channel-split count
in `[2, inputChannels)` (StrategyX.cpp lines 387-415). -/
def ZxyParamsList (a : SearchArgs) : List ZxyParams :=
  (ActivationCompressionOptions a.capabilities (IsFullyConnected a.mceOperation)).flatMap
    (fun compression =>
      (SortBlockConfigs a.allowedBlockConfigs).flatMap (fun currBlockConfig =>
        if IsBlockConfigCompatible currBlockConfig a.capabilities a.mceOperation
            a.upsampleType = true then
          (List.range' 2 (GetChannels a.inputShape - 2)).map (fun numInputChannelSplits =>
            { blockHeight := currBlockConfig.m_BlockHeight,
              blockWidth := currBlockConfig.m_BlockWidth,
              inputStripeChannel := GetChannels a.inputShape / numInputChannelSplits,
              outputStripeHeight := currBlockConfig.m_BlockHeight * a.pleShapeMultiplier.m_H,
              outputStripeWidth := currBlockConfig.m_BlockWidth * a.pleShapeMultiplier.m_W,
              outputStripeChannel := a.capabilities.numberOfOfm * a.pleShapeMultiplier.m_C,
              activationCompression := compression })
        else []))

/-- Assemble the resolver argument bundle for one ZXY candidate
(the `TryStripeShapes` call at StrategyX.cpp lines 425-430). -/
def ZxyTssArgs (a : SearchArgs) (sram : SramAllocator) (cfg : TensorConfig)
    (p : ZxyParams) (allowInputBuffering avoidInputReloading : Bool)
    (weightsReloading : WeightsReloadingOptions) : TssArgs :=
  { mceOperation := a.mceOperation,
    sramAllocator := sram,
    requestedOutputStripe :=
      ⟨1, p.outputStripeHeight, p.outputStripeWidth, p.outputStripeChannel⟩,
    requestedInputChannels := p.inputStripeChannel,
    inputShape := a.inputShape,
    outputShape := a.outputShape,
    weightsFormat := a.weightsFormat,
    weightsShape := a.weightsShape,
    capabilities := a.capabilities,
    mceShapeMultiplier := a.mceShapeMultiplier,
    pleShapeMultiplier := a.pleShapeMultiplier,
    pad := a.pad,
    inputStaticAndOffset := a.inputStaticAndOffset,
    outTensorConfig := cfg,
    depthMax := a.depthMax,
    allowInputBuffering := allowInputBuffering,
    avoidInputReloading := avoidInputReloading,
    activationCompression := p.activationCompression,
    weightsReloading := weightsReloading }

/-- One ZXY candidate trial (`TryConf`, StrategyX.cpp lines 422-442):
call the resolver and accept only if the resulting input stripe is
partial depth.  Note that a resolver success rejected for full depth
still returns the committed allocator and configuration. -/
def ZxyTryConf (a : SearchArgs) (sram : SramAllocator) (cfg : TensorConfig)
    (p : ZxyParams) (allowInputBuffering avoidInputReloading : Bool)
    (weightsReloading : WeightsReloadingOptions) : StrategyResult :=
  match TryStripeShapes (ZxyTssArgs a sram cfg p allowInputBuffering avoidInputReloading
      weightsReloading) with
  | StrategyResult.assertFailed e => StrategyResult.assertFailed e
  | StrategyResult.done true sram' cfg' =>
      if GetChannels cfg'.inputAllocation.stripeShape < GetChannels a.inputShape then
        StrategyResult.done true sram'
          { cfg' with blockWidth := p.blockWidth, blockHeight := p.blockHeight,
                      strategy := Strategy.STRATEGY_X }
      else StrategyResult.done false sram' cfg'
  | StrategyResult.done false sram' cfg' => StrategyResult.done false sram' cfg'

/-- One entry of the ZXY trial sequence: a candidate parameter record
plus the buffering flags and the weights-reloading mode it is tried
with. -/
structure ZxyTrial where
  params : ZxyParams
  allowInputBuffering : Bool
  avoidInputReloading : Bool
  weightsReloading : WeightsReloadingOptions
deriving DecidableEq, Repr

/-- The three buffering tiers of one weights-reloading mode, in the
order the search tries them (StrategyX.cpp lines 453-481):
(a) buffering with reload avoidance, (b) buffering without reload
avoidance, (c) no buffering. -/
def ZxyTrialsOfModes (modes : List WeightsReloadingOptions)
    (paramsList : List ZxyParams) : List ZxyTrial :=
  modes.flatMap (fun m =>
    paramsList.map (fun p => ⟨p, true, true, m⟩) ++
    paramsList.map (fun p => ⟨p, true, false, m⟩) ++
    paramsList.map (fun p => ⟨p, false, false, m⟩))

/-- The weights-reloading modes in the order tried
(StrategyX.cpp lines 383-385). -/
def AllWeightsReloadingOptions : List WeightsReloadingOptions :=
  [WeightsReloadingOptions.NO_RELOADING,
   WeightsReloadingOptions.RELOADING_DOUBLE_BUFFERING,
   WeightsReloadingOptions.RELOADING_NO_DOUBLE_BUFFERING]

def ZxyTrials (paramsList : List ZxyParams) : List ZxyTrial :=
  ZxyTrialsOfModes AllWeightsReloadingOptions paramsList

/-- Run the ZXY trials in order, threading the allocator and the
configuration, stopping at the first acceptance (the nested loops of
StrategyX.cpp lines 453-481). -/
def RunZxyTrials (a : SearchArgs) :
    SramAllocator → TensorConfig → List ZxyTrial → StrategyResult
  | sram, cfg, [] => StrategyResult.done false sram cfg
  | sram, cfg, t :: ts =>
      match ZxyTryConf a sram cfg t.params t.allowInputBuffering t.avoidInputReloading
          t.weightsReloading with
      | StrategyResult.assertFailed e => StrategyResult.assertFailed e
      | StrategyResult.done true sram' cfg' => StrategyResult.done true sram' cfg'
      | StrategyResult.done false sram' cfg' => RunZxyTrials a sram' cfg' ts

/-- The channel-split (ZXY input traversal) search
(StrategyX.cpp lines 331-484). -/
def TryInputZXYOutputXYZ (a : SearchArgs) : StrategyResult :=
  if a.inputStaticAndOffset.1 = true then
    StrategyResult.done false a.sramAllocator a.tensorConfig
  else
    let paramsList := ZxyParamsList a
    if paramsList.length = 0 then
      StrategyResult.done false a.sramAllocator a.tensorConfig
    else
      RunZxyTrials a a.sramAllocator a.tensorConfig (ZxyTrials paramsList)

/-- One candidate parameter record of the whole-channel (XY) search
(StrategyX.cpp lines 525-533). -/
structure XyParams where
  blockHeight : Nat
  blockWidth : Nat
  inputStripeChannel : Nat
  outputStripeHeight : Nat
  outputStripeWidth : Nat
  outputStripeChannel : Nat
deriving DecidableEq, Repr

/-- The XY search's candidate list: one candidate per compatible block
config (sorted), with the full input-channel count
(StrategyX.cpp lines 535-554). -/
def XyParamsList (a : SearchArgs) : List XyParams :=
  (SortBlockConfigs a.allowedBlockConfigs).flatMap (fun currBlockConfig =>
    if IsBlockConfigCompatible currBlockConfig a.capabilities a.mceOperation
        a.upsampleType = true then
      [{ blockHeight := currBlockConfig.m_BlockHeight,
         blockWidth := currBlockConfig.m_BlockWidth,
         inputStripeChannel := GetChannels a.inputShape,
         outputStripeHeight := currBlockConfig.m_BlockHeight * a.pleShapeMultiplier.m_H,
         outputStripeWidth := currBlockConfig.m_BlockWidth * a.pleShapeMultiplier.m_W,
         outputStripeChannel := a.capabilities.numberOfOfm * a.pleShapeMultiplier.m_C }]
    else [])

/-- Assemble the resolver argument bundle for one XY candidate: only
`allowInputBuffering` varies; reload avoidance, activation compression
and non-default weights reloading are never requested
(the `TryStripeShapes` call at StrategyX.cpp lines 562-566). -/
def XyTssArgs (a : SearchArgs) (sram : SramAllocator) (cfg : TensorConfig)
    (p : XyParams) (allowInputBuffering : Bool) : TssArgs :=
  { mceOperation := a.mceOperation,
    sramAllocator := sram,
    requestedOutputStripe :=
      ⟨1, p.outputStripeHeight, p.outputStripeWidth, p.outputStripeChannel⟩,
    requestedInputChannels := p.inputStripeChannel,
    inputShape := a.inputShape,
    outputShape := a.outputShape,
    weightsFormat := a.weightsFormat,
    weightsShape := a.weightsShape,
    capabilities := a.capabilities,
    mceShapeMultiplier := a.mceShapeMultiplier,
    pleShapeMultiplier := a.pleShapeMultiplier,
    pad := a.pad,
    inputStaticAndOffset := a.inputStaticAndOffset,
    outTensorConfig := cfg,
    depthMax := a.depthMax,
    allowInputBuffering := allowInputBuffering,
    avoidInputReloading := false,
    activationCompression := false,
    weightsReloading := WeightsReloadingOptions.NO_RELOADING }

/-- One XY candidate trial (`TryConf`, StrategyX.cpp lines 561-574):
first resolver success wins, no partial-depth requirement. -/
def XyTryConf (a : SearchArgs) (sram : SramAllocator) (cfg : TensorConfig)
    (p : XyParams) (allowInputBuffering : Bool) : StrategyResult :=
  match TryStripeShapes (XyTssArgs a sram cfg p allowInputBuffering) with
  | StrategyResult.assertFailed e => StrategyResult.assertFailed e
  | StrategyResult.done true sram' cfg' =>
      StrategyResult.done true sram'
        { cfg' with blockWidth := p.blockWidth, blockHeight := p.blockHeight,
                    strategy := Strategy.STRATEGY_X }
  | StrategyResult.done false sram' cfg' => StrategyResult.done false sram' cfg'

/-- Run the XY trials in order (the two loops of
StrategyX.cpp lines 576-592). -/
def RunXyTrials (a : SearchArgs) :
    SramAllocator → TensorConfig → List (XyParams × Bool) → StrategyResult
  | sram, cfg, [] => StrategyResult.done false sram cfg
  | sram, cfg, (p, allowInputBuffering) :: ts =>
      match XyTryConf a sram cfg p allowInputBuffering with
      | StrategyResult.assertFailed e => StrategyResult.assertFailed e
      | StrategyResult.done true sram' cfg' => StrategyResult.done true sram' cfg'
      | StrategyResult.done false sram' cfg' => RunXyTrials a sram' cfg' ts

/-- The whole-channel (XY input traversal) search
(StrategyX.cpp lines 488-595): applicable only to fully-connected
operators with a non-fixed input. -/
def TryInputXYOutputXYZ (a : SearchArgs) : StrategyResult :=
  if a.inputStaticAndOffset.1 = true then
    StrategyResult.done false a.sramAllocator a.tensorConfig
  else if IsFullyConnected a.mceOperation = false then
    StrategyResult.done false a.sramAllocator a.tensorConfig
  else
    let paramsList := XyParamsList a
    if paramsList.length = 0 then
      StrategyResult.done false a.sramAllocator a.tensorConfig
    else
      RunXyTrials a a.sramAllocator a.tensorConfig
        (paramsList.map (fun p => (p, true)) ++ paramsList.map (fun p => (p, false)))

/-- The strategy entry point (StrategyX.cpp lines 628-659): try the XY
search, then the ZXY search. -/
def TryStrategyX (a : SearchArgs) : StrategyResult :=
  match TryInputXYOutputXYZ a with
  | StrategyResult.assertFailed e => StrategyResult.assertFailed e
  | StrategyResult.done true sram' cfg' => StrategyResult.done true sram' cfg'
  | StrategyResult.done false sram' cfg' =>
      TryInputZXYOutputXYZ { a with sramAllocator := sram', tensorConfig := cfg' }

/-! ### Basic lemmas about the resolver -/

/-- Abbreviation for the allocation attempt made by `TryStripeShapes`. -/
def TssFits (g : TssArgs) : AllocationResult × SramAllocator :=
  FitsInSram g.sramAllocator g.capabilities (InputTileOf g) (WeightTileOf g)
    (OutputTileOf g) g.inputStaticAndOffset

theorem tryStripeShapes_done_false (g : TssArgs) (s' : SramAllocator) (c' : TensorConfig)
    (h : TryStripeShapes g = StrategyResult.done false s' c') :
    s' = g.sramAllocator ∧ c' = g.outTensorConfig := by
  simp only [TryStripeShapes] at h
  split at h
  · simp only [StrategyResult.done.injEq] at h
    exact ⟨h.2.1.symm, h.2.2.symm⟩
  · split at h
    · simp at h
    · split at h
      · simp at h
      · split at h
        · simp only [StrategyResult.done.injEq] at h
          exact ⟨h.2.1.symm, h.2.2.symm⟩
        · split at h
          · simp only [StrategyResult.done.injEq] at h
            exact ⟨h.2.1.symm, h.2.2.symm⟩
          · simp at h

theorem tryStripeShapes_done_true (g : TssArgs) (s' : SramAllocator) (c' : TensorConfig)
    (h : TryStripeShapes g = StrategyResult.done true s' c') :
    s' = (TssFits g).2 ∧
    c' = { g.outTensorConfig with
           inputAllocation := ⟨InputStripeOf g, InputTileOf g, (TssFits g).1.inputOffset⟩,
           outputAllocation := ⟨OutputStripeOf g, OutputTileOf g, (TssFits g).1.outputOffset⟩,
           weightsAllocation :=
             ⟨WeightStripeOf g, WeightTileOf g, (TssFits g).1.weightOffset⟩ } ∧
    (TssFits g).1.m_Success = true ∧
    g.weightsFormat = DataFormat.hwioLayout ∧
    (g.activationCompression = true → g.capabilities.activationCompressionVersion = 1) ∧
    GetHeight (InputStripeOf g) % GetHeight g.capabilities.brickGroupShape = 0 ∧
    GetWidth (InputStripeOf g) % GetWidth g.capabilities.brickGroupShape = 0 ∧
    GetHeight (OutputStripeOf g) % GetHeight g.capabilities.brickGroupShape = 0 ∧
    GetWidth (OutputStripeOf g) % GetWidth g.capabilities.brickGroupShape = 0 := by
  simp only [TryStripeShapes] at h
  split at h
  · simp at h
  · next hInDma =>
    split at h
    · simp at h
    · next hHwio =>
      split at h
      · simp at h
      · next hCompr =>
        split at h
        · simp at h
        · next hOutDma =>
          split at h
          · simp at h
          · next hFits =>
            simp only [StrategyResult.done.injEq, true_and] at h
            push_neg at hInDma hOutDma hHwio
            refine ⟨h.1.symm, h.2.symm, ?_, hHwio, ?_, hInDma.1, hInDma.2, hOutDma.1,
              hOutDma.2⟩
            · exact Bool.eq_true_of_not_eq_false hFits
            · intro hac
              by_contra hver
              exact hCompr ⟨hac, hver⟩

theorem tryStripeShapes_not_compression_assert (g : TssArgs)
    (h : g.activationCompression = true → g.capabilities.activationCompressionVersion = 1) :
    TryStripeShapes g ≠ StrategyResult.assertFailed StrategyAssert.compressionVersion := by
  simp only [TryStripeShapes]
  split
  · simp
  · split
    · simp
    · split
      · next hc => exact absurd (h hc.1) hc.2
      · split
        · simp
        · split <;> simp

/-! ### Concrete scenarios used by witnesses and counterexamples -/

/-- Capabilities of a compression-version-0 target: 64 accumulators per
engine, 8x8x16 brick group, 16 SRAMs, 16 OFMs. -/
def capsV0 : HardwareCapabilities := ⟨64, ⟨1, 8, 8, 16⟩, 16, 16, 0⟩

def mult1 : ShapeMultiplier := ⟨1, 1, 1⟩

/-- An empty tensor configuration, as a caller would hand in. -/
def cfg0 : TensorConfig :=
  ⟨⟨⟨0, 0, 0, 0⟩, 0, 0⟩, ⟨⟨0, 0, 0, 0⟩, 0, 0⟩, ⟨⟨0, 0, 0, 0⟩, 0, 0⟩, 0, 0, Strategy.NONE⟩

/-- Resolver scenario A: a 32-channel convolution with a 16-channel
split request and ample SRAM; the resolver succeeds. -/
def gScnA : TssArgs :=
  { mceOperation := MceOperation.CONVOLUTION, sramAllocator := ⟨65536, 0⟩,
    requestedOutputStripe := ⟨1, 8, 8, 16⟩, requestedInputChannels := 16,
    inputShape := ⟨1, 8, 8, 32⟩, outputShape := ⟨1, 8, 8, 16⟩,
    weightsFormat := DataFormat.hwioLayout, weightsShape := ⟨1, 1, 32, 16⟩,
    capabilities := capsV0, mceShapeMultiplier := mult1, pleShapeMultiplier := mult1,
    pad := (0, 0), inputStaticAndOffset := (false, 0), outTensorConfig := cfg0,
    depthMax := 64, allowInputBuffering := true, avoidInputReloading := true,
    activationCompression := false,
    weightsReloading := WeightsReloadingOptions.NO_RELOADING }

/-- The configuration the resolver produces on scenario A. -/
def cfgScnA : TensorConfig :=
  ⟨⟨⟨1, 8, 8, 16⟩, 2048, 0⟩, ⟨⟨1, 8, 8, 16⟩, 1024, 2560⟩, ⟨⟨1, 1, 16, 16⟩, 512, 2048⟩,
   0, 0, Strategy.NONE⟩

/-- Resolver scenario B: a fully-connected operator with 1024 input
channels; the resolver succeeds, exercising the fully-connected
weight-stripe rules under the no-double-buffering reload mode. -/
def gScnB : TssArgs :=
  { mceOperation := MceOperation.FULLY_CONNECTED, sramAllocator := ⟨4000000, 0⟩,
    requestedOutputStripe := ⟨1, 8, 8, 16⟩, requestedInputChannels := 1024,
    inputShape := ⟨1, 1, 1, 1024⟩, outputShape := ⟨1, 1, 1, 16⟩,
    weightsFormat := DataFormat.hwioLayout, weightsShape := ⟨1, 1, 1024, 16⟩,
    capabilities := capsV0, mceShapeMultiplier := mult1, pleShapeMultiplier := mult1,
    pad := (0, 0), inputStaticAndOffset := (false, 0), outTensorConfig := cfg0,
    depthMax := 64, allowInputBuffering := true, avoidInputReloading := false,
    activationCompression := false,
    weightsReloading := WeightsReloadingOptions.RELOADING_NO_DOUBLE_BUFFERING }

/-- The configuration the resolver produces on scenario B. -/
def cfgScnB : TensorConfig :=
  ⟨⟨⟨1, 8, 8, 1024⟩, 65536, 0⟩, ⟨⟨1, 8, 8, 16⟩, 1024, 2162688⟩,
   ⟨⟨1, 1, 65536, 16⟩, 2097152, 65536⟩, 0, 0, Strategy.NONE⟩

/-- Resolver scenario C: a 16-row image split into two stripes along the
height, with a depth maximum of 8 on lane-count-16 hardware; the
resolver succeeds with an 8-channel output stripe. -/
def gScnC : TssArgs :=
  { mceOperation := MceOperation.CONVOLUTION, sramAllocator := ⟨65536, 0⟩,
    requestedOutputStripe := ⟨1, 8, 8, 16⟩, requestedInputChannels := 16,
    inputShape := ⟨1, 16, 8, 32⟩, outputShape := ⟨1, 16, 8, 16⟩,
    weightsFormat := DataFormat.hwioLayout, weightsShape := ⟨1, 1, 32, 16⟩,
    capabilities := capsV0, mceShapeMultiplier := mult1, pleShapeMultiplier := mult1,
    pad := (0, 0), inputStaticAndOffset := (false, 0), outTensorConfig := cfg0,
    depthMax := 8, allowInputBuffering := false, avoidInputReloading := false,
    activationCompression := false,
    weightsReloading := WeightsReloadingOptions.NO_RELOADING }

/-- The configuration the resolver produces on scenario C. -/
def cfgScnC : TensorConfig :=
  ⟨⟨⟨1, 8, 8, 16⟩, 1024, 0⟩, ⟨⟨1, 8, 8, 8⟩, 1024, 1280⟩, ⟨⟨1, 1, 16, 8⟩, 256, 1024⟩,
   0, 0, Strategy.NONE⟩

/-- Resolver scenario D: a 48-channel input with a 24-channel split
request; the request rounds up to 32 channels, two slot groups are
allocated, and the input tile (4096 bytes) exceeds the rounded-up full
input tensor (3072 bytes). -/
def gScnD : TssArgs :=
  { mceOperation := MceOperation.CONVOLUTION, sramAllocator := ⟨65536, 0⟩,
    requestedOutputStripe := ⟨1, 8, 8, 16⟩, requestedInputChannels := 24,
    inputShape := ⟨1, 8, 8, 48⟩, outputShape := ⟨1, 8, 8, 16⟩,
    weightsFormat := DataFormat.hwioLayout, weightsShape := ⟨1, 1, 48, 16⟩,
    capabilities := capsV0, mceShapeMultiplier := mult1, pleShapeMultiplier := mult1,
    pad := (0, 0), inputStaticAndOffset := (false, 0), outTensorConfig := cfg0,
    depthMax := 64, allowInputBuffering := true, avoidInputReloading := false,
    activationCompression := false,
    weightsReloading := WeightsReloadingOptions.NO_RELOADING }

/-- The configuration the resolver produces on scenario D. -/
def cfgScnD : TensorConfig :=
  ⟨⟨⟨1, 8, 8, 32⟩, 4096, 0⟩, ⟨⟨1, 8, 8, 16⟩, 1024, 5120⟩, ⟨⟨1, 1, 32, 16⟩, 1024, 4096⟩,
   0, 0, Strategy.NONE⟩

/-! ### Claim C2 -/

/-- C2: `TryStripeShapes` either fails leaving the allocator and the
output tensor configuration exactly as given, or succeeds having written
all three stripe shapes, all three tile sizes and the allocator offsets
into the configuration (touching nothing else in it) and having
advanced the allocator to the private copy's post-allocation state. -/
theorem tryStripeShapes_commit_discipline (g : TssArgs) :
    (∀ s' c', TryStripeShapes g = StrategyResult.done false s' c' →
      s' = g.sramAllocator ∧ c' = g.outTensorConfig) ∧
    (∀ s' c', TryStripeShapes g = StrategyResult.done true s' c' →
      (TssFits g).1.m_Success = true ∧
      s' = (TssFits g).2 ∧
      c' = { g.outTensorConfig with
             inputAllocation := ⟨InputStripeOf g, InputTileOf g, (TssFits g).1.inputOffset⟩,
             outputAllocation :=
               ⟨OutputStripeOf g, OutputTileOf g, (TssFits g).1.outputOffset⟩,
             weightsAllocation :=
               ⟨WeightStripeOf g, WeightTileOf g, (TssFits g).1.weightOffset⟩ }) := by
  constructor
  · exact fun s' c' h => tryStripeShapes_done_false g s' c' h
  · intro s' c' h
    obtain ⟨hs, hc, hok, _⟩ := tryStripeShapes_done_true g s' c' h
    exact ⟨hok, hs, hc⟩

/-- C2 witness: on scenario A the resolver succeeds, the allocation
attempt is a success, the allocator is advanced to the copy's state and
the configuration is fully populated. -/
theorem tryStripeShapes_commit_discipline_witness :
    (TssFits gScnA).1.m_Success = true ∧
    (⟨65536, 3584⟩ : SramAllocator) = (TssFits gScnA).2 ∧
    cfgScnA = { gScnA.outTensorConfig with
                inputAllocation :=
                  ⟨InputStripeOf gScnA, InputTileOf gScnA, (TssFits gScnA).1.inputOffset⟩,
                outputAllocation :=
                  ⟨OutputStripeOf gScnA, OutputTileOf gScnA, (TssFits gScnA).1.outputOffset⟩,
                weightsAllocation :=
                  ⟨WeightStripeOf gScnA, WeightTileOf gScnA,
                   (TssFits gScnA).1.weightOffset⟩ } :=
  (tryStripeShapes_commit_discipline gScnA).2 ⟨65536, 3584⟩ cfgScnA (by decide)

/-! ### Claim C4 -/

/-- C4 counterexample: on scenario D the resolver accepts a
configuration whose input tile (4096 bytes) exceeds the byte size of the
full input tensor rounded up to brick-group spatial granularity and
SRAM-lane channel granularity (3072 bytes) — the claimed bound fails for
the input tile. -/
theorem tryStripeShapes_input_tile_bound_counterexample :
    TryStripeShapes gScnD = StrategyResult.done true ⟨65536, 6144⟩ cfgScnD ∧
    cfgScnD.inputAllocation.tileSize = 4096 ∧
    TotalSizeBytes
      ⟨1, RoundUpToNearestMultiple (GetHeight gScnD.inputShape)
            (GetHeight gScnD.capabilities.brickGroupShape),
       RoundUpToNearestMultiple (GetWidth gScnD.inputShape)
         (GetWidth gScnD.capabilities.brickGroupShape),
       RoundUpToNearestMultiple (GetChannels gScnD.inputShape)
         gScnD.capabilities.numberOfSrams⟩ = 3072 ∧
    4096 > 3072 := by
  refine ⟨by decide, by decide, by decide, by decide⟩

/-- C4 amended: only the output tile carries the full-tensor bound — on
every accepted configuration the output tile byte size never exceeds the
byte size of the full output tensor rounded up to brick-group spatial
granularity and OFM channel granularity.  (The input tile is not so
bounded, see the counterexample.) -/
theorem tryStripeShapes_output_tile_bound_amended (g : TssArgs) :
    ∀ s' c', TryStripeShapes g = StrategyResult.done true s' c' →
      c'.outputAllocation.tileSize ≤ OutputTileMaxOf g := by
  intro s' c' h
  obtain ⟨_, hc, _⟩ := tryStripeShapes_done_true g s' c' h
  subst hc
  show OutputTileOf g ≤ OutputTileMaxOf g
  unfold OutputTileOf
  exact Nat.min_le_right _ _

/-- C4 amended witness: on scenario A the accepted output tile
(1024 bytes) respects the rounded full-output-tensor bound. -/
theorem tryStripeShapes_output_tile_bound_witness :
    cfgScnA.outputAllocation.tileSize ≤ OutputTileMaxOf gScnA :=
  tryStripeShapes_output_tile_bound_amended gScnA ⟨65536, 3584⟩ cfgScnA (by decide)

/-! ### Claim C6 -/

/-- C6: the block-config compatibility filter returns `false` exactly
when the block's element count exceeds the per-engine accumulator count,
or the operator is fully-connected and the block is not 8x8, or
upsampling is enabled and the block is not 16x16; otherwise it returns
`true` (it is a pure function of its arguments). -/
theorem isBlockConfigCompatible_characterization (blockConfig : BlockConfig)
    (capabilities : HardwareCapabilities) (mceOperation : MceOperation)
    (upsampleType : UpsampleType) :
    IsBlockConfigCompatible blockConfig capabilities mceOperation upsampleType = false ↔
      (blockConfig.m_BlockWidth * blockConfig.m_BlockHeight >
          capabilities.totalAccumulatorsPerEngine ∨
       (mceOperation = MceOperation.FULLY_CONNECTED ∧
         ¬(blockConfig.m_BlockWidth = 8 ∧ blockConfig.m_BlockHeight = 8)) ∨
       (upsampleType ≠ UpsampleType.OFF ∧
         ¬(blockConfig.m_BlockWidth = 16 ∧ blockConfig.m_BlockHeight = 16))) := by
  simp only [IsBlockConfigCompatible, IsFullyConnected, IsUpsampling, decide_eq_true_eq]
  split
  · next h1 => simp_all
  · next h1 =>
    split
    · next h2 => simp_all
    · next h2 =>
      split
      · next h3 => simp_all
      · next h3 => simp_all

/-! ### Claim C7 -/

/-- C7: for a fully-connected operator with HWIO weights, every accepted
configuration has a weight stripe whose input-channel dimension is the
input-stripe element count rounded up to the weight-channel-vector
granularity, and a weight tile holding exactly 2 weight stripes
regardless of the requested reload mode; for other operators the weight
tile holds all input-channel iterations under NO_RELOADING, 2 under
RELOADING_DOUBLE_BUFFERING and 1 under RELOADING_NO_DOUBLE_BUFFERING. -/
theorem tryStripeShapes_weight_stripe_rules (g : TssArgs) :
    (∀ s' c', g.mceOperation = MceOperation.FULLY_CONNECTED →
      g.weightsFormat = DataFormat.hwioLayout →
      TryStripeShapes g = StrategyResult.done true s' c' →
      c'.weightsAllocation.stripeShape.d2 =
        RoundUpToNearestMultiple
          (GetHeight c'.inputAllocation.stripeShape * GetWidth c'.inputAllocation.stripeShape *
            GetChannels c'.inputAllocation.stripeShape) g_WeightsChannelVecProd ∧
      c'.weightsAllocation.tileSize =
        EstimateWeightSizeBytes c'.weightsAllocation.stripeShape g.capabilities
          (decide (g.weightsFormat = DataFormat.hwimLayout)) * 2) ∧
    (∀ s' c', ¬g.mceOperation = MceOperation.FULLY_CONNECTED →
      TryStripeShapes g = StrategyResult.done true s' c' →
      c'.weightsAllocation.tileSize =
        EstimateWeightSizeBytes c'.weightsAllocation.stripeShape g.capabilities
          (decide (g.weightsFormat = DataFormat.hwimLayout)) *
        (match g.weightsReloading with
         | WeightsReloadingOptions.NO_RELOADING =>
             DivRoundUp (GetChannels g.inputShape) (GetChannels c'.inputAllocation.stripeShape)
         | WeightsReloadingOptions.RELOADING_DOUBLE_BUFFERING => 2
         | WeightsReloadingOptions.RELOADING_NO_DOUBLE_BUFFERING => 1)) := by
  constructor
  · intro s' c' hFc _ h
    obtain ⟨_, hc, _⟩ := tryStripeShapes_done_true g s' c' h
    subst hc
    constructor
    · show (WeightStripeOf g).d2 = _
      simp only [WeightStripeOf, IsFullyConnected, hFc, decide_eq_true_eq]
      rfl
    · show WeightTileOf g = _
      simp only [WeightTileOf, NumWeightStripesInTileOf, IsFullyConnected, hFc]
      rfl
  · intro s' c' hFc h
    obtain ⟨_, hc, _⟩ := tryStripeShapes_done_true g s' c' h
    subst hc
    show WeightTileOf g = _
    simp only [WeightTileOf, NumWeightStripesInTileOf, IsFullyConnected,
      decide_eq_false hFc]
    rfl

/-- C7 witness: on fully-connected scenario B (requested reload mode
RELOADING_NO_DOUBLE_BUFFERING) the weight stripe's input-channel
dimension is the rounded input-stripe element count and the weight tile
holds exactly 2 stripes. -/
theorem tryStripeShapes_weight_stripe_rules_witness :
    cfgScnB.weightsAllocation.stripeShape.d2 =
      RoundUpToNearestMultiple
        (GetHeight cfgScnB.inputAllocation.stripeShape *
          GetWidth cfgScnB.inputAllocation.stripeShape *
          GetChannels cfgScnB.inputAllocation.stripeShape) g_WeightsChannelVecProd ∧
    cfgScnB.weightsAllocation.tileSize =
      EstimateWeightSizeBytes cfgScnB.weightsAllocation.stripeShape gScnB.capabilities
        (decide (gScnB.weightsFormat = DataFormat.hwimLayout)) * 2 :=
  (tryStripeShapes_weight_stripe_rules gScnB).1 ⟨4000000, 2163712⟩ cfgScnB (by decide)
    (by decide) (by decide)

/-! ### Claim C3 -/

theorem dvd_roundUpToNearestMultiple {m n : Nat} (x : Nat) (h : m ∣ n) :
    m ∣ RoundUpToNearestMultiple x n :=
  h.trans (Dvd.intro_left _ rfl)

theorem dvd_min_of_dvd {d a b : Nat} (h1 : d ∣ a) (h2 : d ∣ b) : d ∣ min a b := by
  rcases Nat.le_total a b with h | h
  · rwa [Nat.min_eq_left h]
  · rwa [Nat.min_eq_right h]

theorem dvd_outputStripeChannelsPre (g : TssArgs)
    (hBG : g.capabilities.numberOfSrams ∣ GetChannels g.capabilities.brickGroupShape) :
    g.capabilities.numberOfSrams * (g.mceShapeMultiplier.m_C * g.pleShapeMultiplier.m_C) ∣
      OutputStripeChannelsPreOf g := by
  simp only [OutputStripeChannelsPreOf]
  split
  · exact dvd_roundUpToNearestMultiple _
      (Nat.mul_dvd_mul_right hBG (g.mceShapeMultiplier.m_C * g.pleShapeMultiplier.m_C))
  · exact dvd_roundUpToNearestMultiple _ dvd_rfl

theorem dvd_outputStripeChannelsCapped (g : TssArgs)
    (hBG : g.capabilities.numberOfSrams ∣ GetChannels g.capabilities.brickGroupShape)
    (hDM : g.capabilities.numberOfSrams *
      (g.mceShapeMultiplier.m_C * g.pleShapeMultiplier.m_C) ∣ g.depthMax) :
    g.capabilities.numberOfSrams * (g.mceShapeMultiplier.m_C * g.pleShapeMultiplier.m_C) ∣
      OutputStripeChannelsCappedOf g := by
  simp only [OutputStripeChannelsCappedOf]
  split
  · exact dvd_min_of_dvd (dvd_outputStripeChannelsPre g hBG) hDM
  · exact dvd_outputStripeChannelsPre g hBG

/-- C3 counterexample: on scenario C the resolver accepts a
configuration whose output-stripe channel count is 8, which is not a
multiple of the SRAM lane count (16) times the channel shape multiplier
(1) — the depth cap broke the claimed multiplicity. -/
theorem tryStripeShapes_alignment_counterexample :
    TryStripeShapes gScnC = StrategyResult.done true ⟨65536, 2304⟩ cfgScnC ∧
    GetChannels cfgScnC.outputAllocation.stripeShape = 8 ∧
    ¬(gScnC.capabilities.numberOfSrams *
        (gScnC.mceShapeMultiplier.m_C * gScnC.pleShapeMultiplier.m_C) ∣
      GetChannels cfgScnC.outputAllocation.stripeShape) := by
  refine ⟨by decide, by decide, by decide⟩

/-- C3 amended: on every accepted configuration the input and output
stripes' height and width are exact multiples of the brick-group
height/width (including after activation-compression widening), and the
input-stripe channel count is an exact multiple of SRAM-lane-count times
the stride size — provided the lane count divides the brick-group
channel count.  The output-stripe channel count is a multiple of the
lane count times the channel shape multiplier only under the additional
hypotheses that `depthMax` is such a multiple (the depth cap copies it
verbatim) and, when activation compression is on, that the lane-times-
multiplier granule divides 16 (the FCAF widening writes 16 or 32). -/
theorem tryStripeShapes_alignment_amended (g : TssArgs)
    (hBG : g.capabilities.numberOfSrams ∣ GetChannels g.capabilities.brickGroupShape)
    (hDM : g.capabilities.numberOfSrams *
      (g.mceShapeMultiplier.m_C * g.pleShapeMultiplier.m_C) ∣ g.depthMax)
    (hFcaf : g.activationCompression = true →
      g.capabilities.numberOfSrams *
        (g.mceShapeMultiplier.m_C * g.pleShapeMultiplier.m_C) ∣ 16) :
    ∀ s' c', TryStripeShapes g = StrategyResult.done true s' c' →
      GetHeight c'.inputAllocation.stripeShape %
          GetHeight g.capabilities.brickGroupShape = 0 ∧
      GetWidth c'.inputAllocation.stripeShape %
          GetWidth g.capabilities.brickGroupShape = 0 ∧
      GetHeight c'.outputAllocation.stripeShape %
          GetHeight g.capabilities.brickGroupShape = 0 ∧
      GetWidth c'.outputAllocation.stripeShape %
          GetWidth g.capabilities.brickGroupShape = 0 ∧
      g.capabilities.numberOfSrams * StrideSizeOf g ∣
        GetChannels c'.inputAllocation.stripeShape ∧
      g.capabilities.numberOfSrams *
          (g.mceShapeMultiplier.m_C * g.pleShapeMultiplier.m_C) ∣
        GetChannels c'.outputAllocation.stripeShape := by
  intro s' c' h
  obtain ⟨_, hc, _, _, _, hIn1, hIn2, hOut1, hOut2⟩ := tryStripeShapes_done_true g s' c' h
  subst hc
  refine ⟨hIn1, hIn2, hOut1, hOut2, ?_, ?_⟩
  · show g.capabilities.numberOfSrams * StrideSizeOf g ∣ InputStripeChannelsOf g
    simp only [InputStripeChannelsOf]
    split
    · exact dvd_roundUpToNearestMultiple _ (Nat.mul_dvd_mul_right hBG (StrideSizeOf g))
    · exact dvd_roundUpToNearestMultiple _ dvd_rfl
  · show g.capabilities.numberOfSrams *
        (g.mceShapeMultiplier.m_C * g.pleShapeMultiplier.m_C) ∣
      GetChannels (OutputStripeOf g)
    simp only [OutputStripeOf]
    split
    · next hw =>
      show g.capabilities.numberOfSrams * _ ∣ MinFcafDepthOf g
      have h16 := hFcaf hw.1
      simp only [MinFcafDepthOf]
      split
      · exact h16.trans (by norm_num)
      · exact h16
    · exact dvd_outputStripeChannelsCapped g hBG hDM

/-- C3 amended witness: scenario A satisfies the capability and depth
hypotheses and its accepted configuration is fully aligned. -/
theorem tryStripeShapes_alignment_witness :
    GetHeight cfgScnA.inputAllocation.stripeShape %
        GetHeight gScnA.capabilities.brickGroupShape = 0 ∧
    GetWidth cfgScnA.inputAllocation.stripeShape %
        GetWidth gScnA.capabilities.brickGroupShape = 0 ∧
    GetHeight cfgScnA.outputAllocation.stripeShape %
        GetHeight gScnA.capabilities.brickGroupShape = 0 ∧
    GetWidth cfgScnA.outputAllocation.stripeShape %
        GetWidth gScnA.capabilities.brickGroupShape = 0 ∧
    gScnA.capabilities.numberOfSrams * StrideSizeOf gScnA ∣
      GetChannels cfgScnA.inputAllocation.stripeShape ∧
    gScnA.capabilities.numberOfSrams *
        (gScnA.mceShapeMultiplier.m_C * gScnA.pleShapeMultiplier.m_C) ∣
      GetChannels cfgScnA.outputAllocation.stripeShape :=
  tryStripeShapes_alignment_amended gScnA (by decide) (by decide) (by decide)
    ⟨65536, 3584⟩ cfgScnA (by decide)

/-! ### Claim C1 -/

/-- A trial "commits without accepting" when its resolver call succeeds
but the resulting input stripe is full depth: the resolver has already
advanced the allocator and written the configuration, yet the ZXY search
rejects the candidate and keeps going. -/
def ZxyTrialBadCommit (a : SearchArgs) (sram : SramAllocator) (cfg : TensorConfig)
    (t : ZxyTrial) : Bool :=
  match TryStripeShapes (ZxyTssArgs a sram cfg t.params t.allowInputBuffering
      t.avoidInputReloading t.weightsReloading) with
  | StrategyResult.done true _ cfg' =>
      if GetChannels cfg'.inputAllocation.stripeShape < GetChannels a.inputShape then false
      else true
  | _ => false

theorem zxyTryConf_done_false_preserves (a : SearchArgs) (sram : SramAllocator)
    (cfg : TensorConfig) (t : ZxyTrial)
    (hnb : ZxyTrialBadCommit a sram cfg t = false) (s1 : SramAllocator) (c1 : TensorConfig)
    (h : ZxyTryConf a sram cfg t.params t.allowInputBuffering t.avoidInputReloading
      t.weightsReloading = StrategyResult.done false s1 c1) :
    s1 = sram ∧ c1 = cfg := by
  unfold ZxyTryConf at h
  unfold ZxyTrialBadCommit at hnb
  split at h
  · exact absurd h (by simp)
  · next sram' cfg' heq =>
    split at h
    · exact absurd h (by simp)
    · next hlt =>
      simp only [heq] at hnb
      rw [if_neg hlt] at hnb
      exact absurd hnb (by simp)
  · next sram' cfg' heq =>
    simp only [StrategyResult.done.injEq, true_and] at h
    obtain ⟨hs, hc⟩ := tryStripeShapes_done_false _ _ _ heq
    exact ⟨h.1 ▸ hs, h.2 ▸ hc⟩

theorem runZxyTrials_done_false_preserves (a : SearchArgs) (s0 : SramAllocator)
    (c0 : TensorConfig) (ts : List ZxyTrial)
    (hAll : ∀ t ∈ ts, ZxyTrialBadCommit a s0 c0 t = false) :
    ∀ s' c', RunZxyTrials a s0 c0 ts = StrategyResult.done false s' c' →
      s' = s0 ∧ c' = c0 := by
  induction ts with
  | nil =>
    intro s' c' h
    simp only [RunZxyTrials, StrategyResult.done.injEq, true_and] at h
    exact ⟨h.1.symm, h.2.symm⟩
  | cons t ts ih =>
    intro s' c' h
    simp only [RunZxyTrials] at h
    split at h
    · exact absurd h (by simp)
    · exact absurd h (by simp)
    · next s1 c1 heq =>
      obtain ⟨hs, hc⟩ := zxyTryConf_done_false_preserves a s0 c0 t
        (hAll t (List.mem_cons_self t ts)) s1 c1 heq
      subst hs; subst hc
      exact ih (fun t' ht' => hAll t' (List.mem_cons_of_mem t ht')) s' c' h

/-- ZXY-search scenario E: a 16-channel input on lane-count-16 hardware,
so every channel-split candidate rounds back up to the full 16 channels;
the budget (2304 bytes) lets exactly the first resolver call succeed.
That trial commits, is rejected for being full depth, and every later
trial fails allocation — the search fails overall with the allocator
advanced and the configuration written. -/
def aScnE : SearchArgs :=
  { mceOperation := MceOperation.CONVOLUTION, upsampleType := UpsampleType.OFF,
    tensorConfig := cfg0, sramAllocator := ⟨2304, 0⟩,
    inputShape := ⟨1, 8, 8, 16⟩, outputShape := ⟨1, 8, 8, 16⟩,
    weightsFormat := DataFormat.hwioLayout, weightsShape := ⟨1, 1, 16, 16⟩,
    pad := (0, 0), allowedBlockConfigs := [⟨8, 8⟩], capabilities := capsV0,
    mceShapeMultiplier := mult1, pleShapeMultiplier := mult1,
    inputStaticAndOffset := (false, 0), depthMax := 64 }

/-- The configuration the rejected full-depth commit leaves behind on
scenario E. -/
def cfgScnE : TensorConfig :=
  ⟨⟨⟨1, 8, 8, 16⟩, 1024, 0⟩, ⟨⟨1, 8, 8, 16⟩, 1024, 1280⟩, ⟨⟨1, 1, 16, 16⟩, 256, 1024⟩,
   0, 0, Strategy.NONE⟩

/-- C1 counterexample: on scenario E the ZXY search returns failure, yet
the allocator has been advanced (2304 bytes used instead of 0) and the
caller's tensor configuration has been overwritten — a trial whose
resolver call succeeded but whose input stripe was full depth leaked its
commit. -/
theorem tryInputZXY_state_leak_counterexample :
    TryInputZXYOutputXYZ aScnE = StrategyResult.done false ⟨2304, 2304⟩ cfgScnE ∧
    ¬((⟨2304, 2304⟩ : SramAllocator) = aScnE.sramAllocator ∧
      cfgScnE = aScnE.tensorConfig) := by
  refine ⟨by decide, by decide⟩

/-- C1 amended: when the ZXY search fails, the allocator and the
caller's tensor configuration are left exactly as provided — provided no
trial's resolver call succeeded with a full-depth input stripe (such a
trial commits before the search rejects it; see the counterexample). -/
theorem tryInputZXY_failure_preserves_state_amended (a : SearchArgs)
    (H : ∀ t ∈ ZxyTrials (ZxyParamsList a),
      ZxyTrialBadCommit a a.sramAllocator a.tensorConfig t = false) :
    ∀ s' c', TryInputZXYOutputXYZ a = StrategyResult.done false s' c' →
      s' = a.sramAllocator ∧ c' = a.tensorConfig := by
  intro s' c' h
  simp only [TryInputZXYOutputXYZ] at h
  split at h
  · simp only [StrategyResult.done.injEq, true_and] at h
    exact ⟨h.1.symm, h.2.symm⟩
  · split at h
    · simp only [StrategyResult.done.injEq, true_and] at h
      exact ⟨h.1.symm, h.2.symm⟩
    · exact runZxyTrials_done_false_preserves a _ _ _ H s' c' h

/-- ZXY-search scenario F: like scenario E but with a zero byte budget,
so every resolver call fails allocation and nothing ever commits. -/
def aScnF : SearchArgs :=
  { mceOperation := MceOperation.CONVOLUTION, upsampleType := UpsampleType.OFF,
    tensorConfig := cfg0, sramAllocator := ⟨0, 0⟩,
    inputShape := ⟨1, 8, 8, 16⟩, outputShape := ⟨1, 8, 8, 16⟩,
    weightsFormat := DataFormat.hwioLayout, weightsShape := ⟨1, 1, 16, 16⟩,
    pad := (0, 0), allowedBlockConfigs := [⟨8, 8⟩], capabilities := capsV0,
    mceShapeMultiplier := mult1, pleShapeMultiplier := mult1,
    inputStaticAndOffset := (false, 0), depthMax := 64 }

set_option maxRecDepth 4000 in
/-- C1 amended witness: on scenario F no trial ever commits, the search
fails, and the allocator and configuration are returned untouched. -/
theorem tryInputZXY_failure_preserves_state_witness :
    (⟨0, 0⟩ : SramAllocator) = aScnF.sramAllocator ∧ cfg0 = aScnF.tensorConfig :=
  tryInputZXY_failure_preserves_state_amended aScnF (by decide) ⟨0, 0⟩ cfg0 (by decide)

/-! ### Claim C5 -/

theorem zxyTryConf_done_true_partialDepth (a : SearchArgs) (sram : SramAllocator)
    (cfg : TensorConfig) (p : ZxyParams) (buf avoid : Bool)
    (m : WeightsReloadingOptions) (s' : SramAllocator) (c' : TensorConfig)
    (h : ZxyTryConf a sram cfg p buf avoid m = StrategyResult.done true s' c') :
    GetChannels c'.inputAllocation.stripeShape < GetChannels a.inputShape := by
  unfold ZxyTryConf at h
  split at h
  · exact absurd h (by simp)
  · next sram1 cfg1 heq =>
    split at h
    · next hlt =>
      simp only [StrategyResult.done.injEq, true_and] at h
      rw [← h.2]
      exact hlt
    · exact absurd h (by simp)
  · exact absurd h (by simp)

theorem runZxyTrials_done_true_partialDepth (a : SearchArgs) (s0 : SramAllocator)
    (c0 : TensorConfig) (ts : List ZxyTrial) :
    ∀ s' c', RunZxyTrials a s0 c0 ts = StrategyResult.done true s' c' →
      GetChannels c'.inputAllocation.stripeShape < GetChannels a.inputShape := by
  induction ts generalizing s0 c0 with
  | nil =>
    intro s' c' h
    exact absurd h (by simp [RunZxyTrials])
  | cons t ts ih =>
    intro s' c' h
    simp only [RunZxyTrials] at h
    split at h
    · exact absurd h (by simp)
    · next s1 c1 heq =>
      simp only [StrategyResult.done.injEq, true_and] at h
      exact h.2 ▸ zxyTryConf_done_true_partialDepth a s0 c0 t.params t.allowInputBuffering
        t.avoidInputReloading t.weightsReloading s1 c1 heq
    · exact ih _ _ s' c' h

theorem list_bind_nil {α β : Type} (l : List α) (f : α → List β)
    (hf : ∀ x ∈ l, f x = []) : l.flatMap f = [] := by
  induction l with
  | nil => rfl
  | cons x xs ih =>
    show f x ++ xs.flatMap f = []
    rw [hf x (List.mem_cons_self x xs),
      ih (fun y hy => hf y (List.mem_cons_of_mem x hy))]
    rfl

theorem zxyParamsList_nil_of_le_two (a : SearchArgs)
    (hle : GetChannels a.inputShape ≤ 2) : ZxyParamsList a = [] := by
  unfold ZxyParamsList
  apply list_bind_nil
  intro compression _
  apply list_bind_nil
  intro b _
  split
  · rw [Nat.sub_eq_zero_of_le hle]
    rfl
  · rfl

/-- C5: the ZXY search only ever returns success with an input stripe
that is strictly partial depth; and whenever the input tensor's channel
count makes the candidate split loop (counts 2 up to the channel count,
exclusive) empty, the search returns failure with the allocator and
configuration untouched. -/
theorem tryInputZXY_partial_depth_only (a : SearchArgs) :
    (∀ s' c', TryInputZXYOutputXYZ a = StrategyResult.done true s' c' →
      GetChannels c'.inputAllocation.stripeShape < GetChannels a.inputShape) ∧
    (GetChannels a.inputShape ≤ 2 →
      TryInputZXYOutputXYZ a =
        StrategyResult.done false a.sramAllocator a.tensorConfig) := by
  constructor
  · intro s' c' h
    simp only [TryInputZXYOutputXYZ] at h
    split at h
    · exact absurd h (by simp)
    · split at h
      · exact absurd h (by simp)
      · exact runZxyTrials_done_true_partialDepth a _ _ _ s' c' h
  · intro hle
    have hnil := zxyParamsList_nil_of_le_two a hle
    simp only [TryInputZXYOutputXYZ]
    split
    · rfl
    · simp [hnil]

/-- ZXY-search scenario G: an 18-channel convolution with ample SRAM;
the very first candidate (split count 2, rounded to a 16-channel input
stripe) is accepted — a genuine channel split. -/
def aScnG : SearchArgs :=
  { mceOperation := MceOperation.CONVOLUTION, upsampleType := UpsampleType.OFF,
    tensorConfig := cfg0, sramAllocator := ⟨65536, 0⟩,
    inputShape := ⟨1, 8, 8, 18⟩, outputShape := ⟨1, 8, 8, 16⟩,
    weightsFormat := DataFormat.hwioLayout, weightsShape := ⟨1, 1, 18, 16⟩,
    pad := (0, 0), allowedBlockConfigs := [⟨8, 8⟩], capabilities := capsV0,
    mceShapeMultiplier := mult1, pleShapeMultiplier := mult1,
    inputStaticAndOffset := (false, 0), depthMax := 64 }

/-- The configuration the ZXY search produces on scenario G. -/
def cfgScnG : TensorConfig :=
  ⟨⟨⟨1, 8, 8, 16⟩, 2048, 0⟩, ⟨⟨1, 8, 8, 16⟩, 1024, 2560⟩, ⟨⟨1, 1, 16, 16⟩, 512, 2048⟩,
   8, 8, Strategy.STRATEGY_X⟩

/-- ZXY-search scenario H: a 2-channel input, making the candidate split
loop empty. -/
def aScnH : SearchArgs :=
  { mceOperation := MceOperation.CONVOLUTION, upsampleType := UpsampleType.OFF,
    tensorConfig := cfg0, sramAllocator := ⟨65536, 0⟩,
    inputShape := ⟨1, 8, 8, 2⟩, outputShape := ⟨1, 8, 8, 16⟩,
    weightsFormat := DataFormat.hwioLayout, weightsShape := ⟨1, 1, 2, 16⟩,
    pad := (0, 0), allowedBlockConfigs := [⟨8, 8⟩], capabilities := capsV0,
    mceShapeMultiplier := mult1, pleShapeMultiplier := mult1,
    inputStaticAndOffset := (false, 0), depthMax := 64 }

set_option maxRecDepth 4000 in
/-- C5 witness: scenario G succeeds with a 16-of-18-channel (partial
depth) input stripe, and scenario H (2 channels, empty split loop) fails
with everything untouched. -/
theorem tryInputZXY_partial_depth_only_witness :
    GetChannels cfgScnG.inputAllocation.stripeShape < GetChannels aScnG.inputShape ∧
    TryInputZXYOutputXYZ aScnH =
      StrategyResult.done false aScnH.sramAllocator aScnH.tensorConfig :=
  ⟨(tryInputZXY_partial_depth_only aScnG).1 ⟨65536, 3584⟩ cfgScnG (by decide),
   (tryInputZXY_partial_depth_only aScnH).2 (by decide)⟩

/-! ### Claim C8 -/

/-- C8: the XY (whole-channel) search fails immediately — leaving the
allocator and configuration untouched, never reaching the resolver — for
every non-fully-connected operator, and likewise whenever the input
tensor is fixed at a caller-supplied offset. -/
theorem tryInputXY_rejects_nonFullyConnected_and_static (a : SearchArgs) :
    (IsFullyConnected a.mceOperation = false →
      TryInputXYOutputXYZ a =
        StrategyResult.done false a.sramAllocator a.tensorConfig) ∧
    (a.inputStaticAndOffset.1 = true →
      TryInputXYOutputXYZ a =
        StrategyResult.done false a.sramAllocator a.tensorConfig) := by
  constructor
  · intro hFc
    simp only [TryInputXYOutputXYZ, hFc]
    split <;> rfl
  · intro hs
    simp only [TryInputXYOutputXYZ, hs, if_true]

/-- C8 witness: on the convolution of scenario G the XY search rejects
immediately with everything untouched. -/
theorem tryInputXY_rejects_nonFullyConnected_witness :
    TryInputXYOutputXYZ aScnG =
      StrategyResult.done false aScnG.sramAllocator aScnG.tensorConfig :=
  (tryInputXY_rejects_nonFullyConnected_and_static aScnG).1 (by decide)

/-! ### Claim C10 -/

theorem mem_activationCompressionOptions_true (capabilities : HardwareCapabilities)
    (isFullyConnected : Bool)
    (h : true ∈ ActivationCompressionOptions capabilities isFullyConnected) :
    capabilities.activationCompressionVersion = 1 := by
  unfold ActivationCompressionOptions at h
  rw [List.mem_append] at h
  rcases h with h | h
  · split at h
    · next hc => exact hc.1
    · exact absurd h (by simp)
  · exact absurd h (by simp)

theorem zxyParamsList_compression_version (a : SearchArgs) (p : ZxyParams)
    (hp : p ∈ ZxyParamsList a) (hc : p.activationCompression = true) :
    a.capabilities.activationCompressionVersion = 1 := by
  unfold ZxyParamsList at hp
  rw [List.mem_flatMap] at hp
  obtain ⟨compression, hcomp, hp⟩ := hp
  rw [List.mem_flatMap] at hp
  obtain ⟨b, _, hp⟩ := hp
  split at hp
  · rw [List.mem_map] at hp
    obtain ⟨k, _, rfl⟩ := hp
    simp only at hc
    exact mem_activationCompressionOptions_true a.capabilities _ (hc ▸ hcomp)
  · exact absurd hp (by simp)

theorem zxyTryConf_assertFailed (a : SearchArgs) (sram : SramAllocator)
    (cfg : TensorConfig) (p : ZxyParams) (buf avoid : Bool)
    (m : WeightsReloadingOptions) (e : StrategyAssert)
    (h : ZxyTryConf a sram cfg p buf avoid m = StrategyResult.assertFailed e) :
    TryStripeShapes (ZxyTssArgs a sram cfg p buf avoid m) =
      StrategyResult.assertFailed e := by
  unfold ZxyTryConf at h
  split at h
  · next e' heq =>
    simp only [StrategyResult.assertFailed.injEq] at h
    exact h ▸ heq
  · split at h
    · exact absurd h (by simp)
    · exact absurd h (by simp)
  · exact absurd h (by simp)

theorem runZxyTrials_not_compression_assert (a : SearchArgs)
    (hver : ∀ t ∈ ZxyTrials (ZxyParamsList a),
      t.params.activationCompression = true →
        a.capabilities.activationCompressionVersion = 1)
    (s0 : SramAllocator) (c0 : TensorConfig) (ts : List ZxyTrial)
    (hts : ∀ t ∈ ts, t ∈ ZxyTrials (ZxyParamsList a)) :
    RunZxyTrials a s0 c0 ts ≠
      StrategyResult.assertFailed StrategyAssert.compressionVersion := by
  induction ts generalizing s0 c0 with
  | nil => simp [RunZxyTrials]
  | cons t ts ih =>
    simp only [RunZxyTrials]
    split
    · next e heq =>
      intro hcontra
      simp only [StrategyResult.assertFailed.injEq] at hcontra
      subst hcontra
      exact tryStripeShapes_not_compression_assert _
        (fun hcc => hver t (hts t (List.mem_cons_self t ts)) hcc)
        (zxyTryConf_assertFailed a s0 c0 t.params t.allowInputBuffering
          t.avoidInputReloading t.weightsReloading _ heq)
    · simp
    · exact ih _ _ (fun t' ht' => hts t' (List.mem_cons_of_mem t ht'))

theorem xyTryConf_assertFailed (a : SearchArgs) (sram : SramAllocator)
    (cfg : TensorConfig) (p : XyParams) (buf : Bool) (e : StrategyAssert)
    (h : XyTryConf a sram cfg p buf = StrategyResult.assertFailed e) :
    TryStripeShapes (XyTssArgs a sram cfg p buf) = StrategyResult.assertFailed e := by
  unfold XyTryConf at h
  split at h
  · next e' heq =>
    simp only [StrategyResult.assertFailed.injEq] at h
    exact h ▸ heq
  · exact absurd h (by simp)
  · exact absurd h (by simp)

theorem runXyTrials_not_compression_assert (a : SearchArgs) (s0 : SramAllocator)
    (c0 : TensorConfig) (ts : List (XyParams × Bool)) :
    RunXyTrials a s0 c0 ts ≠
      StrategyResult.assertFailed StrategyAssert.compressionVersion := by
  induction ts generalizing s0 c0 with
  | nil => simp [RunXyTrials]
  | cons t ts ih =>
    obtain ⟨p, buf⟩ := t
    simp only [RunXyTrials]
    split
    · next e heq =>
      intro hcontra
      simp only [StrategyResult.assertFailed.injEq] at hcontra
      subst hcontra
      exact tryStripeShapes_not_compression_assert _
        (fun hcc => absurd hcc (by simp [XyTssArgs]))
        (xyTryConf_assertFailed a s0 c0 p buf _ heq)
    · simp
    · exact ih _ _

theorem mem_zxyTrials_params (pl : List ZxyParams) (t : ZxyTrial)
    (h : t ∈ ZxyTrials pl) : t.params ∈ pl := by
  unfold ZxyTrials ZxyTrialsOfModes at h
  rw [List.mem_flatMap] at h
  obtain ⟨m, _, h⟩ := h
  rw [List.mem_append] at h
  rcases h with h | h
  · rw [List.mem_append] at h
    rcases h with h | h <;>
    · rw [List.mem_map] at h
      obtain ⟨p, hp, rfl⟩ := h
      exact hp
  · rw [List.mem_map] at h
    obtain ⟨p, hp, rfl⟩ := h
    exact hp

/-- C10: neither traversal search can ever hit the resolver's
activation-compression assertion: the ZXY search offers the compression
option only on compression-version-1 hardware, and the XY search never
enables compression at all. -/
theorem searches_never_hit_compression_assert (a : SearchArgs) :
    TryInputZXYOutputXYZ a ≠
      StrategyResult.assertFailed StrategyAssert.compressionVersion ∧
    TryInputXYOutputXYZ a ≠
      StrategyResult.assertFailed StrategyAssert.compressionVersion := by
  constructor
  · simp only [TryInputZXYOutputXYZ]
    split
    · simp
    · split
      · simp
      · exact runZxyTrials_not_compression_assert a
          (fun t ht hc => zxyParamsList_compression_version a t.params
            (mem_zxyTrials_params _ t ht) hc)
          a.sramAllocator a.tensorConfig _ (fun t ht => ht)
  · simp only [TryInputXYOutputXYZ]
    split
    · simp
    · split
      · simp
      · split
        · simp
        · exact runXyTrials_not_compression_assert a a.sramAllocator a.tensorConfig _

/-- C10 witness: on scenario G neither search hits the compression
assertion. -/
theorem searches_never_hit_compression_assert_witness :
    TryInputZXYOutputXYZ aScnG ≠
      StrategyResult.assertFailed StrategyAssert.compressionVersion :=
  (searches_never_hit_compression_assert aScnG).1

/-! ### Claim C9 -/

/-- Whether a trial, run from the given allocator/configuration state,
is accepted by the ZXY search. -/
def ZxyTrialAccepts (a : SearchArgs) (sram : SramAllocator) (cfg : TensorConfig)
    (t : ZxyTrial) : Bool :=
  match ZxyTryConf a sram cfg t.params t.allowInputBuffering t.avoidInputReloading
      t.weightsReloading with
  | StrategyResult.done true _ _ => true
  | _ => false

/-- Whether a trial, run from the given state, either is accepted or
fails cleanly (no assertion, and a failure leaves the state unchanged —
i.e. the trial is not a rejected full-depth commit). -/
def ZxyTrialCleanFail (a : SearchArgs) (sram : SramAllocator) (cfg : TensorConfig)
    (t : ZxyTrial) : Bool :=
  match ZxyTryConf a sram cfg t.params t.allowInputBuffering t.avoidInputReloading
      t.weightsReloading with
  | StrategyResult.done false s' c' => decide (s' = sram ∧ c' = cfg)
  | StrategyResult.done true _ _ => true
  | StrategyResult.assertFailed _ => false

/-- The weights-reloading modes the search tries strictly before `m`. -/
def ModesBefore : WeightsReloadingOptions → List WeightsReloadingOptions
  | WeightsReloadingOptions.NO_RELOADING => []
  | WeightsReloadingOptions.RELOADING_DOUBLE_BUFFERING =>
      [WeightsReloadingOptions.NO_RELOADING]
  | WeightsReloadingOptions.RELOADING_NO_DOUBLE_BUFFERING =>
      [WeightsReloadingOptions.NO_RELOADING,
       WeightsReloadingOptions.RELOADING_DOUBLE_BUFFERING]

/-- The weights-reloading modes the search tries strictly after `m`. -/
def ModesAfter : WeightsReloadingOptions → List WeightsReloadingOptions
  | WeightsReloadingOptions.NO_RELOADING =>
      [WeightsReloadingOptions.RELOADING_DOUBLE_BUFFERING,
       WeightsReloadingOptions.RELOADING_NO_DOUBLE_BUFFERING]
  | WeightsReloadingOptions.RELOADING_DOUBLE_BUFFERING =>
      [WeightsReloadingOptions.RELOADING_NO_DOUBLE_BUFFERING]
  | WeightsReloadingOptions.RELOADING_NO_DOUBLE_BUFFERING => []

theorem find?_append_some {α : Type} (l1 l2 : List α) (p : α → Bool) (x : α)
    (h : l1.find? p = some x) : (l1 ++ l2).find? p = some x := by
  induction l1 with
  | nil => simp [List.find?] at h
  | cons a as ih =>
    by_cases hpa : p a = true
    · rw [List.find?_cons_of_pos as hpa] at h
      rw [List.cons_append, List.find?_cons_of_pos _ hpa]
      exact h
    · rw [List.find?_cons_of_neg as hpa] at h
      rw [List.cons_append, List.find?_cons_of_neg _ hpa]
      exact ih h

theorem find?_append_none {α : Type} (l1 l2 : List α) (p : α → Bool)
    (h : l1.find? p = none) : (l1 ++ l2).find? p = l2.find? p := by
  induction l1 with
  | nil => rfl
  | cons a as ih =>
    by_cases hpa : p a = true
    · rw [List.find?_cons_of_pos as hpa] at h
      exact absurd h (by simp)
    · rw [List.find?_cons_of_neg as hpa] at h
      rw [List.cons_append, List.find?_cons_of_neg _ hpa]
      exact ih h

theorem find?_isSome_of_mem {α : Type} (l : List α) (p : α → Bool) (x : α)
    (hx : x ∈ l) (hpx : p x = true) : (l.find? p).isSome = true := by
  induction l with
  | nil => exact absurd hx (by simp)
  | cons a as ih =>
    by_cases hpa : p a = true
    · rw [List.find?_cons_of_pos as hpa]
      rfl
    · rw [List.find?_cons_of_neg as hpa]
      rcases List.mem_cons.mp hx with rfl | hmem
      · exact absurd hpx hpa
      · exact ih hmem

theorem zxyTrialsOfModes_append (ms1 ms2 : List WeightsReloadingOptions)
    (pl : List ZxyParams) :
    ZxyTrialsOfModes (ms1 ++ ms2) pl =
      ZxyTrialsOfModes ms1 pl ++ ZxyTrialsOfModes ms2 pl := by
  unfold ZxyTrialsOfModes
  exact List.flatMap_append ms1 ms2 _

/-- Under the clean-trial hypothesis, running the ZXY trials from a
state is exactly "take the first trial accepted at that state, or fail
with the state unchanged". -/
theorem runZxyTrials_eq_find (a : SearchArgs) (s0 : SramAllocator) (c0 : TensorConfig)
    (ts : List ZxyTrial) (hclean : ∀ t ∈ ts, ZxyTrialCleanFail a s0 c0 t = true) :
    RunZxyTrials a s0 c0 ts =
      match ts.find? (ZxyTrialAccepts a s0 c0) with
      | some t => ZxyTryConf a s0 c0 t.params t.allowInputBuffering
          t.avoidInputReloading t.weightsReloading
      | none => StrategyResult.done false s0 c0 := by
  induction ts with
  | nil => rfl
  | cons t ts ih =>
    simp only [RunZxyTrials]
    cases hm : ZxyTryConf a s0 c0 t.params t.allowInputBuffering t.avoidInputReloading
        t.weightsReloading with
    | assertFailed e =>
      have hcf := hclean t (List.mem_cons_self t ts)
      unfold ZxyTrialCleanFail at hcf
      rw [hm] at hcf
      exact absurd hcf (by simp)
    | done b s' c' =>
      have hacc : ZxyTrialAccepts a s0 c0 t = b := by
        unfold ZxyTrialAccepts
        rw [hm]
        cases b <;> rfl
      cases b with
      | true =>
        rw [List.find?_cons_of_pos ts hacc]
        exact hm.symm
      | false =>
        have hcf := hclean t (List.mem_cons_self t ts)
        unfold ZxyTrialCleanFail at hcf
        rw [hm] at hcf
        obtain ⟨hs, hc⟩ := of_decide_eq_true hcf
        subst hs; subst hc
        rw [List.find?_cons_of_neg ts (by rw [hacc]; exact Bool.false_ne_true)]
        exact ih (fun t' ht' => hclean t' (List.mem_cons_of_mem t ht'))

/-- C9: within each weights-reloading mode the ZXY search tries every
candidate with input double buffering plus reload avoidance before any
candidate without reload avoidance, and those before any candidate with
no input buffering.  Consequently, if (from the initial state) no trial
commits-then-rejects or asserts, no trial of an earlier reloading mode
is accepted, and some buffered+avoid-reload candidate of mode `m` is
accepted, then the trial the search actually returns is itself a
buffered+avoid-reload trial of mode `m` — never a no-buffering one. -/
theorem tryInputZXY_priority_order (a : SearchArgs)
    (hstatic : a.inputStaticAndOffset.1 = false)
    (hclean : ∀ t ∈ ZxyTrials (ZxyParamsList a),
      ZxyTrialCleanFail a a.sramAllocator a.tensorConfig t = true)
    (m : WeightsReloadingOptions)
    (hprev : ∀ t ∈ ZxyTrialsOfModes (ModesBefore m) (ZxyParamsList a),
      ZxyTrialAccepts a a.sramAllocator a.tensorConfig t = false)
    (p : ZxyParams) (hp : p ∈ ZxyParamsList a)
    (hacc : ZxyTrialAccepts a a.sramAllocator a.tensorConfig ⟨p, true, true, m⟩ = true) :
    (((ZxyTrials (ZxyParamsList a)).find?
        (ZxyTrialAccepts a a.sramAllocator a.tensorConfig)).isSome = true) ∧
    (∀ t', (ZxyTrials (ZxyParamsList a)).find?
        (ZxyTrialAccepts a a.sramAllocator a.tensorConfig) = some t' →
      t'.allowInputBuffering = true ∧ t'.avoidInputReloading = true ∧
      t'.weightsReloading = m ∧ t'.params ∈ ZxyParamsList a ∧
      ZxyTrialAccepts a a.sramAllocator a.tensorConfig t' = true ∧
      TryInputZXYOutputXYZ a = ZxyTryConf a a.sramAllocator a.tensorConfig t'.params
        t'.allowInputBuffering t'.avoidInputReloading t'.weightsReloading) := by
  have hplne : ¬(ZxyParamsList a).length = 0 := by
    intro h0
    rw [List.length_eq_zero] at h0
    rw [h0] at hp
    exact absurd hp (by simp)
  have hdec1 : AllWeightsReloadingOptions = ModesBefore m ++ ([m] ++ ModesAfter m) := by
    cases m <;> rfl
  have hdec : ZxyTrials (ZxyParamsList a) =
      ZxyTrialsOfModes (ModesBefore m) (ZxyParamsList a) ++
      (ZxyTrialsOfModes [m] (ZxyParamsList a) ++
        ZxyTrialsOfModes (ModesAfter m) (ZxyParamsList a)) := by
    show ZxyTrialsOfModes AllWeightsReloadingOptions (ZxyParamsList a) = _
    rw [hdec1, zxyTrialsOfModes_append, zxyTrialsOfModes_append]
  have htierm : ZxyTrialsOfModes [m] (ZxyParamsList a) ++
      ZxyTrialsOfModes (ModesAfter m) (ZxyParamsList a) =
      (ZxyParamsList a).map (fun q => ⟨q, true, true, m⟩) ++
      ((ZxyParamsList a).map (fun q => ⟨q, true, false, m⟩) ++
        ((ZxyParamsList a).map (fun q => ⟨q, false, false, m⟩) ++
          ZxyTrialsOfModes (ModesAfter m) (ZxyParamsList a))) := by
    show ([m].flatMap fun m' => _) ++ _ = _
    rw [List.flatMap_cons, List.flatMap_nil, List.append_nil, List.append_assoc,
      List.append_assoc]
  have hpre : (ZxyTrialsOfModes (ModesBefore m) (ZxyParamsList a)).find?
      (ZxyTrialAccepts a a.sramAllocator a.tensorConfig) = none :=
    List.find?_eq_none.mpr (fun t ht => by simp [hprev t ht])
  have hAsome : (((ZxyParamsList a).map (fun q => (⟨q, true, true, m⟩ : ZxyTrial))).find?
      (ZxyTrialAccepts a a.sramAllocator a.tensorConfig)).isSome = true :=
    find?_isSome_of_mem _ _ ⟨p, true, true, m⟩ (List.mem_map_of_mem _ hp) hacc
  obtain ⟨tA, htA⟩ := Option.isSome_iff_exists.mp hAsome
  have hfound : (ZxyTrials (ZxyParamsList a)).find?
      (ZxyTrialAccepts a a.sramAllocator a.tensorConfig) = some tA := by
    rw [hdec, find?_append_none _ _ _ hpre, htierm, find?_append_some _ _ _ _ htA]
  have hmemA := List.mem_of_find?_eq_some htA
  have hPtA := List.find?_some htA
  obtain ⟨q, hq, hqeq⟩ := List.mem_map.mp hmemA
  have hrun : TryInputZXYOutputXYZ a =
      RunZxyTrials a a.sramAllocator a.tensorConfig (ZxyTrials (ZxyParamsList a)) := by
    simp only [TryInputZXYOutputXYZ]
    rw [if_neg (by simp [hstatic]), if_neg hplne]
  constructor
  · rw [hfound]
    rfl
  · intro t' ht'
    rw [hfound] at ht'
    simp only [Option.some.injEq] at ht'
    subst ht'
    rw [← hqeq]
    refine ⟨rfl, rfl, rfl, hq, ?_, ?_⟩
    · rw [hqeq]
      exact hPtA
    · rw [hrun, runZxyTrials_eq_find a _ _ _ hclean, hfound, ← hqeq]

set_option maxRecDepth 8000 in
/-- C9 witness: on scenario G every trial is clean, the very first
buffered+avoid-reload candidate of the first reloading mode is accepted,
and the trial the search returns is that buffered+avoid-reload trial. -/
theorem tryInputZXY_priority_order_witness :
    (ZxyTrial.mk ⟨8, 8, 9, 8, 8, 16, false⟩ true true
        WeightsReloadingOptions.NO_RELOADING).allowInputBuffering = true ∧
    (ZxyTrial.mk ⟨8, 8, 9, 8, 8, 16, false⟩ true true
        WeightsReloadingOptions.NO_RELOADING).avoidInputReloading = true ∧
    (ZxyTrial.mk ⟨8, 8, 9, 8, 8, 16, false⟩ true true
        WeightsReloadingOptions.NO_RELOADING).weightsReloading =
      WeightsReloadingOptions.NO_RELOADING ∧
    (ZxyTrial.mk ⟨8, 8, 9, 8, 8, 16, false⟩ true true
        WeightsReloadingOptions.NO_RELOADING).params ∈ ZxyParamsList aScnG ∧
    ZxyTrialAccepts aScnG aScnG.sramAllocator aScnG.tensorConfig
      (ZxyTrial.mk ⟨8, 8, 9, 8, 8, 16, false⟩ true true
        WeightsReloadingOptions.NO_RELOADING) = true ∧
    TryInputZXYOutputXYZ aScnG =
      ZxyTryConf aScnG aScnG.sramAllocator aScnG.tensorConfig ⟨8, 8, 9, 8, 8, 16, false⟩
        true true WeightsReloadingOptions.NO_RELOADING :=
  (tryInputZXY_priority_order aScnG (by decide) (by decide)
      WeightsReloadingOptions.NO_RELOADING (by decide) ⟨8, 8, 9, 8, 8, 16, false⟩
      (by decide) (by decide)).2
    (ZxyTrial.mk ⟨8, 8, 9, 8, 8, 16, false⟩ true true
      WeightsReloadingOptions.NO_RELOADING) (by decide)

/-- C6 witness: the characterization instantiated at an 8x8 block on the
scenario hardware for a convolution without upsampling. -/
theorem isBlockConfigCompatible_characterization_witness :
    IsBlockConfigCompatible ⟨8, 8⟩ capsV0 MceOperation.CONVOLUTION
        UpsampleType.OFF = false ↔
      ((8 : Nat) * 8 > capsV0.totalAccumulatorsPerEngine ∨
       (MceOperation.CONVOLUTION = MceOperation.FULLY_CONNECTED ∧ ¬((8 : Nat) = 8 ∧ (8 : Nat) = 8)) ∨
       (UpsampleType.OFF ≠ UpsampleType.OFF ∧ ¬((8 : Nat) = 16 ∧ (8 : Nat) = 16))) :=
  isBlockConfigCompatible_characterization ⟨8, 8⟩ capsV0 MceOperation.CONVOLUTION
    UpsampleType.OFF
